import Mathlib

/-!
Verification development for the sandbox-orchestration core of
FastChat-Software-Arena (`fastchat/serve/sandbox/code_runner.py` and
`fastchat/serve/gradio_block_arena_named.py`).

The Python source is shallowly embedded: dictionaries become structures,
the `StrEnum` of environments becomes an inductive type, handler functions
become pure state-transformers, and the sequence of remote sandbox calls
performed by each `run_*` helper becomes an explicit list of operations.
External parsers invoked by the source (CPython `ast.parse`, tree-sitter)
are modelled at the AST level: the claims quantify over syntactically
valid fragments, i.e. over the parsed trees.
-/

/-- Python `str.strip()` default whitespace characters (ASCII fragment:
space, tab, newline, carriage return, vertical tab, form feed). -/
def pyIsSpace (c : Char) : Bool :=
  c = ' ' || c = '\t' || c = '\n' || c = '\r' || c = Char.ofNat 11 || c = Char.ofNat 12

/-- Python `str.strip()` on a list of characters. -/
def pyStrip (l : List Char) : List Char :=
  ((l.dropWhile pyIsSpace).reverse.dropWhile pyIsSpace).reverse

/-- Python `str.strip()` on a string. -/
def pyStripStr (s : String) : String :=
  String.mk (pyStrip s.data)

/-- Python `str.lower()` (ASCII model, character by character). -/
def pyToLower (s : String) : String :=
  String.mk (s.data.map Char.toLower)

/-- Python `str.split('\n')` on a list of characters: split on newlines,
keeping empty segments. -/
def splitLines : List Char → List (List Char)
  | [] => [[]]
  | '\n' :: rest => [] :: splitLines rest
  | c :: rest =>
    match splitLines rest with
    | [] => [[c]]
    | l :: ls => (c :: l) :: ls

/-- Embedding of the `SandboxEnvironment` StrEnum of `code_runner.py`. -/
inductive SandboxEnvironment where
  | AUTO
  | PYTHON_CODE_INTERPRETER
  | JAVASCRIPT_CODE_INTERPRETER
  | HTML
  | REACT
  | VUE
  | GRADIO
  | STREAMLIT
  | NICEGUI
  | PYGAME
deriving DecidableEq, Repr

/-- String value of each `SandboxEnvironment` member (the StrEnum values). -/
def SandboxEnvironment.value : SandboxEnvironment → String
  | .AUTO => "Auto"
  | .PYTHON_CODE_INTERPRETER => "Python Code Interpreter"
  | .JAVASCRIPT_CODE_INTERPRETER => "Javascript Code Interpreter"
  | .HTML => "HTML"
  | .REACT => "React"
  | .VUE => "Vue"
  | SandboxEnvironment.GRADIO => "Gradio"
  | .STREAMLIT => "Streamlit"
  | .NICEGUI => "NiceGUI"
  | .PYGAME => "PyGame"

/-- Languages the gradio code component can render (`VALID_GRADIO_CODE_LANGUAGES`). -/
def VALID_GRADIO_CODE_LANGUAGES : List String :=
  ["python", "c", "cpp", "markdown", "json", "html", "css", "javascript", "jinja2", "typescript", "yaml", "dockerfile", "shell", "r", "sql",
   "sql-msSQL", "sql-mySQL", "sql-mariaDB", "sql-sqlite", "sql-cassandra", "sql-plSQL", "sql-hive", "sql-pgSQL", "sql-gql", "sql-gpSQL", "sql-sparkSQL",
   "sql-esper"]

/-- Embedding of the `GENERAL_SANDBOX_INSTRUCTION` constant. -/
def GENERAL_SANDBOX_INSTRUCTION : String :=
  " You are an expert Software Engineer. Generate code for a single file to be executed in a sandbox. Do not import external files. You can output information if needed.\n\nThe code must be in the markdown format:\n```<language>\n<code>\n```\n\nIf python or npm packages are needed, you have to explicitly output the required packages in the markdown format:\n***REMOTE SANDBOX PACKAGES***:\n```\npip install <package1> <package2> ...\nnpm install <package1> <package2> ...\n```\n\nThe optional sandbox packages cell must be output together with the code cell in the same message. You should not only output the sandbox packages cell.\n"

/-- Embedding of `DEFAULT_PYTHON_CODE_INTERPRETER_INSTRUCTION`. -/
def DEFAULT_PYTHON_CODE_INTERPRETER_INSTRUCTION : String :=
  "\nGenerate self-contained Python code for execution in a code interpreter.\nThere are standard and pre-installed libraries: aiohttp, beautifulsoup4, bokeh, gensim, imageio, joblib, librosa, matplotlib, nltk, numpy, opencv-python, openpyxl, pandas, plotly, pytest, python-docx, pytz, requests, scikit-image, scikit-learn, scipy, seaborn, soundfile, spacy, textblob, tornado, urllib3, xarray, xlrd, sympy.\nOutput via stdout, stderr, or render images, plots, and tables.\n"

/-- Embedding of `DEFAULT_JAVASCRIPT_CODE_INTERPRETER_INSTRUCTION`. -/
def DEFAULT_JAVASCRIPT_CODE_INTERPRETER_INSTRUCTION : String :=
  "\nGenerate JavaScript code suitable for execution in a code interpreter environment. This is not for web page apps.\nEnsure the code is self-contained and does not rely on browser-specific APIs.\nYou can output in stdout, stderr, or render images, plots, and tables.\n"

/-- Embedding of `DEFAULT_HTML_SANDBOX_INSTRUCTION`. -/
def DEFAULT_HTML_SANDBOX_INSTRUCTION : String :=
  "\nGenerate HTML code for a single vanilla HTML file to be executed in a sandbox. You can add style and javascript.\n"

/-- Embedding of `DEFAULT_REACT_SANDBOX_INSTRUCTION`. -/
def DEFAULT_REACT_SANDBOX_INSTRUCTION : String :=
  " Generate typescript for a single-file Next.js 13+ React component tsx file. Pre-installed libs: [\"nextjs@14.2.5\", \"typescript\", \"@types/node\", \"@types/react\", \"@types/react-dom\", \"postcss\", \"tailwindcss\", \"shadcn\"] "

/-- Embedding of `DEFAULT_VUE_SANDBOX_INSTRUCTION`. -/
def DEFAULT_VUE_SANDBOX_INSTRUCTION : String :=
  " Generate TypeScript for a single-file Vue.js 3+ component (SFC) in .vue format. The component should be a simple custom page in a styled `<div>` element. Do not include <NuxtWelcome /> or reference any external components. Surround the code with ``` in markdown. Pre-installed libs: [\"nextjs@14.2.5\", \"typescript\", \"@types/node\", \"@types/react\", \"@types/react-dom\", \"postcss\", \"tailwindcss\", \"shadcn\"], "

/-- Embedding of `DEFAULT_PYGAME_SANDBOX_INSTRUCTION`. -/
def DEFAULT_PYGAME_SANDBOX_INSTRUCTION : String :=
  "\nGenerate a pygame code snippet for a single file.\nWrite pygame main method in async function like:\n```python\nimport asyncio\nimport pygame\n\nasync def main():\n    global game_state\n    while game_state:\n        game_state(pygame.event.get())\n        pygame.display.update()\n        await asyncio.sleep(0) # it must be called on every frame\n\nif __name__ == \"__main__\":\n    asyncio.run(main())\n```\n"

/-- Embedding of `DEFAULT_GRADIO_SANDBOX_INSTRUCTION`. -/
def DEFAULT_GRADIO_SANDBOX_INSTRUCTION : String :=
  "\nGenerate Python code for a single-file Gradio application using the Gradio library.\n"

/-- Embedding of `DEFAULT_NICEGUI_SANDBOX_INSTRUCTION`. -/
def DEFAULT_NICEGUI_SANDBOX_INSTRUCTION : String :=
  "\nGenerate a Python NiceGUI code snippet for a single file.\n"

/-- Embedding of `DEFAULT_STREAMLIT_SANDBOX_INSTRUCTION`. -/
def DEFAULT_STREAMLIT_SANDBOX_INSTRUCTION : String :=
  "\nGenerate Python code for a single-file Streamlit application using the Streamlit library.\nThe app should automatically reload when changes are made. \n"

/-- Embedding of the `AUTO_SANDBOX_INSTRUCTION` concatenation. -/
def AUTO_SANDBOX_INSTRUCTION : String :=
  "\nYou are an expert Software Engineer. Generate code for a single file to be executed in a sandbox. Do not import external files. You can output information if needed. \n\nThe code should be in the markdown format:\n```<language>\n<code>\n```\n\nYou can choose from the following sandbox environments:\n"
  ++ "Sandbox Environment Name: " ++ SandboxEnvironment.PYTHON_CODE_INTERPRETER.value ++ "\n" ++ pyStripStr DEFAULT_PYTHON_CODE_INTERPRETER_INSTRUCTION ++ "\n------\n"
  ++ "Sandbox Environment Name: " ++ SandboxEnvironment.REACT.value ++ "\n" ++ pyStripStr DEFAULT_REACT_SANDBOX_INSTRUCTION ++ "\n------\n"
  ++ "Sandbox Environment Name: " ++ SandboxEnvironment.VUE.value ++ "\n" ++ pyStripStr DEFAULT_VUE_SANDBOX_INSTRUCTION ++ "\n------\n"
  ++ "Sandbox Environment Name: " ++ SandboxEnvironment.JAVASCRIPT_CODE_INTERPRETER.value ++ "\n" ++ pyStripStr DEFAULT_JAVASCRIPT_CODE_INTERPRETER_INSTRUCTION ++ "\n------\n"
  ++ "Sandbox Environment Name: " ++ SandboxEnvironment.HTML.value ++ "\n" ++ pyStripStr DEFAULT_HTML_SANDBOX_INSTRUCTION ++ "\n------\n"
  ++ "Sandbox Environment Name: " ++ SandboxEnvironment.GRADIO.value ++ "\n" ++ pyStripStr DEFAULT_GRADIO_SANDBOX_INSTRUCTION ++ "\n------\n"
  ++ "Sandbox Environment Name: " ++ SandboxEnvironment.STREAMLIT.value ++ "\n" ++ pyStripStr DEFAULT_STREAMLIT_SANDBOX_INSTRUCTION ++ "\n------\n"
  ++ "Sandbox Environment Name: " ++ SandboxEnvironment.NICEGUI.value ++ "\n" ++ pyStripStr DEFAULT_NICEGUI_SANDBOX_INSTRUCTION ++ "\n------\n"
  ++ "Sandbox Environment Name: " ++ SandboxEnvironment.PYGAME.value ++ "\n" ++ pyStripStr DEFAULT_PYGAME_SANDBOX_INSTRUCTION ++ "\n------\n"

/-- Embedding of the `DEFAULT_SANDBOX_INSTRUCTIONS` dict.  The Python dict
maps every enum member, so `DEFAULT_SANDBOX_INSTRUCTIONS.get(env, None)` is
never `None`; the lookup is modelled as a total function. -/
def DEFAULT_SANDBOX_INSTRUCTIONS : SandboxEnvironment → String
  | .AUTO => pyStripStr AUTO_SANDBOX_INSTRUCTION
  | .PYTHON_CODE_INTERPRETER => GENERAL_SANDBOX_INSTRUCTION ++ pyStripStr DEFAULT_PYTHON_CODE_INTERPRETER_INSTRUCTION
  | .JAVASCRIPT_CODE_INTERPRETER => GENERAL_SANDBOX_INSTRUCTION ++ pyStripStr DEFAULT_JAVASCRIPT_CODE_INTERPRETER_INSTRUCTION
  | .HTML => GENERAL_SANDBOX_INSTRUCTION ++ pyStripStr DEFAULT_HTML_SANDBOX_INSTRUCTION
  | .REACT => GENERAL_SANDBOX_INSTRUCTION ++ pyStripStr DEFAULT_REACT_SANDBOX_INSTRUCTION
  | .VUE => GENERAL_SANDBOX_INSTRUCTION ++ pyStripStr DEFAULT_VUE_SANDBOX_INSTRUCTION
  | SandboxEnvironment.GRADIO => GENERAL_SANDBOX_INSTRUCTION ++ pyStripStr DEFAULT_GRADIO_SANDBOX_INSTRUCTION
  | .STREAMLIT => GENERAL_SANDBOX_INSTRUCTION ++ pyStripStr DEFAULT_STREAMLIT_SANDBOX_INSTRUCTION
  | .NICEGUI => GENERAL_SANDBOX_INSTRUCTION ++ pyStripStr DEFAULT_NICEGUI_SANDBOX_INSTRUCTION
  | .PYGAME => GENERAL_SANDBOX_INSTRUCTION ++ pyStripStr DEFAULT_PYGAME_SANDBOX_INSTRUCTION

/-- Embedding of the `ChatbotSandboxState` TypedDict.  `code_to_execute`
is typed `str | None` in the source and initialized to `""`, hence
`Option String` here. -/
structure ChatbotSandboxState where
  enable_sandbox : Bool
  sandbox_instruction : Option String
  enabled_round : Nat
  sandbox_environment : Option SandboxEnvironment
  auto_selected_sandbox_environment : Option SandboxEnvironment
  code_to_execute : Option String
  code_language : Option String
  code_dependencies : List String × List String
  btn_list_length : Option Nat
deriving DecidableEq, Repr

/-- Embedding of `create_chatbot_sandbox_state`. -/
def create_chatbot_sandbox_state (btn_list_length : Nat) : ChatbotSandboxState :=
  { enable_sandbox := false
    sandbox_environment := none
    auto_selected_sandbox_environment := none
    sandbox_instruction := none
    code_to_execute := some ""
    code_language := none
    code_dependencies := ([], [])
    enabled_round := 0
    btn_list_length := some btn_list_length }

/-- Embedding of `update_sandbox_config` (code_runner.py, lines 264-275).
Note that the source writes all three fields unconditionally; there is no
check of `enabled_round`. -/
def update_sandbox_config (enable_sandbox : Bool) (sandbox_environment : SandboxEnvironment)
    (state : ChatbotSandboxState) : ChatbotSandboxState :=
  { state with
    enable_sandbox := enable_sandbox
    sandbox_environment := some sandbox_environment
    sandbox_instruction := some (DEFAULT_SANDBOX_INSTRUCTIONS sandbox_environment) }

/-- Embedding of `update_sandbox_config_multi` for two sides. -/
def update_sandbox_config_multi (enable_sandbox : Bool) (sandbox_environment : SandboxEnvironment)
    (state0 state1 : ChatbotSandboxState) : ChatbotSandboxState × ChatbotSandboxState :=
  (update_sandbox_config enable_sandbox sandbox_environment state0,
   update_sandbox_config enable_sandbox sandbox_environment state1)

/-- Embedding of `update_system_prompt_both` (gradio_block_arena_named.py,
lines 605-610): each side's `sandbox_instruction` is overwritten only while
its `enabled_round` is still `0`. -/
def update_system_prompt_both (system_prompt : String)
    (sandbox_state0 sandbox_state1 : ChatbotSandboxState) :
    ChatbotSandboxState × ChatbotSandboxState :=
  let sandbox_state0 :=
    if sandbox_state0.enabled_round = 0 then
      { sandbox_state0 with sandbox_instruction := some system_prompt }
    else sandbox_state0
  let sandbox_state1 :=
    if sandbox_state1.enabled_round = 0 then
      { sandbox_state1 with sandbox_instruction := some system_prompt }
    else sandbox_state1
  (sandbox_state0, sandbox_state1)

/-! ### Python AST model

CPython's `ast` module is external to the repository; the fragment of its
node language that `extract_python_imports` and
`determine_python_environment` inspect is embedded here.  `alias` nodes of
`Import` statements are represented by their dotted-name strings and
`ImportFrom` by its module/level pair; all other node kinds are collapsed
into `other`, which keeps only the child list (sufficient because the
source only ever matches `Import`, `ImportFrom`, `Call`, `Name`,
`Attribute` and string constants). -/

inductive PyNode where
  | Module (body : List PyNode)
  | ExprStmt (value : PyNode)
  | Import (names : List String)
  | ImportFrom (module : Option String) (level : Nat)
  | Call (func : PyNode) (args : List PyNode)
  | Attribute (value : PyNode) (attr : String)
  | Name (id : String)
  | Str (s : String)
  | other (children : List PyNode)

/-- Child nodes in field order, as `ast.iter_child_nodes` yields them. -/
def pyChildren : PyNode → List PyNode
  | .Module body => body
  | .ExprStmt value => [value]
  | .Import _ => []
  | .ImportFrom _ _ => []
  | .Call func args => func :: args
  | .Attribute value _ => [value]
  | .Name _ => []
  | .Str _ => []
  | .other children => children

mutual

/-- Number of nodes in a tree (used as exact fuel for the BFS walk). -/
def pySize : PyNode → Nat
  | .Module body => 1 + pySizeList body
  | .ExprStmt value => 1 + pySize value
  | .Import _ => 1
  | .ImportFrom _ _ => 1
  | .Call func args => 1 + pySize func + pySizeList args
  | .Attribute value _ => 1 + pySize value
  | .Name _ => 1
  | .Str _ => 1
  | .other children => 1 + pySizeList children

/-- Total number of nodes in a forest. -/
def pySizeList : List PyNode → Nat
  | [] => 0
  | n :: rest => pySize n + pySizeList rest

end

/-- Breadth-first traversal step, as in CPython's `ast.walk` (a deque that
pops a node, yields it, and appends its children).  Each step yields one
node and replaces it in the queue by its children, so the total node count
of the initial queue is exact fuel. -/
def walkAux : Nat → List PyNode → List PyNode
  | 0, _ => []
  | _ + 1, [] => []
  | fuel + 1, n :: rest => n :: walkAux fuel (rest ++ pyChildren n)

/-- Embedding of `ast.walk(tree)`: all nodes of the tree in BFS order. -/
def walkPy (tree : PyNode) : List PyNode :=
  walkAux (pySize tree) [tree]

/-- Python `s.split('.')[0]`: the prefix of `s` up to the first dot. -/
def firstDotComponent (s : String) : String :=
  String.mk (s.data.takeWhile (fun c => c ≠ '.'))

/-- Python `s.split('/')[0]`: the prefix of `s` up to the first slash. -/
def firstSlashComponent (s : String) : String :=
  String.mk (s.data.takeWhile (fun c => c ≠ '/'))

/-- Packages contributed by a string-literal first argument
(`len(node.args) > 0 and isinstance(node.args[0], ast.Str)`). -/
def strArgContrib (args : List PyNode) : List String :=
  match args.head? with
  | some (.Str s) => [firstDotComponent s]
  | _ => []

/-- Per-node package contribution of the `for node in ast.walk(tree)` loop
body of `extract_python_imports` (code_runner.py, lines 305-334).  Note the
branch structure for calls: a bare call whose function is the plain name
`importlib` is collected; an attribute call is collected when it is
`importlib.import_module(...)` or `<name>.__import__(...)`.  A bare
`__import__("x")` call has a plain `Name` function node and matches
neither branch. -/
def pyNodeContrib : PyNode → List String
  | .Import names =>
      names.flatMap (fun nm => if nm ≠ "" then [firstDotComponent nm] else [])
  | .ImportFrom module level =>
      match module with
      | some m => if level = 0 ∧ m ≠ "" then [firstDotComponent m] else []
      | none => []
  | .Call func args =>
      match func with
      | .Name id => if id = "importlib" then strArgContrib args else []
      | .Attribute (.Name vid) attr =>
          if vid = "importlib" ∧ attr = "import_module" then strArgContrib args
          else if attr = "__import__" then strArgContrib args
          else []
      | _ => []
  | _ => []

/-- Packages collected by `extract_python_imports` before the
stdlib/pre-installed filtering (the contents of its `packages` set;
represented as a list, so only membership is meaningful). -/
def collectPythonPackages (tree : PyNode) : List String :=
  (walkPy tree).flatMap pyNodeContrib

/-- Fixed set of pre-installed framework names filtered out at the end of
`extract_python_imports`. -/
def preinstalledPackages : List String := ["pygame", "gradio", "streamlit", "nicegui"]

/-- Embedding of `extract_python_imports` on a parsed tree.  The standard
library module set `sys.stdlib_module_names` is read from the interpreter
at run time and is therefore a parameter. -/
def extract_python_imports (std_libs : List String) (tree : PyNode) : List String :=
  (collectPythonPackages tree).filter
    (fun p => p ∉ std_libs ∧ p ∉ preinstalledPackages)

/-- First `gr`/`st` bare-name signal in a node stream, as the
`for node in ast.walk(tree)` loop of `determine_python_environment`
returns on the first match. -/
def findPySignal : List PyNode → Option SandboxEnvironment
  | [] => none
  | .Name id :: rest =>
      if id = "gr" then some SandboxEnvironment.GRADIO
      else if id = "st" then some .STREAMLIT
      else findPySignal rest
  | _ :: rest => findPySignal rest

/-- Embedding of `determine_python_environment` (code_runner.py, lines
419-444).  `parsed = none` models `ast.parse` raising `SyntaxError`
(the source then falls through to the import checks). -/
def determine_python_environment (parsed : Option PyNode) (imports : List String) :
    Option SandboxEnvironment :=
  match parsed with
  | some tree =>
      match findPySignal (walkPy tree) with
      | some env => some env
      | none => determinePythonEnvironmentFromImports imports
  | none => determinePythonEnvironmentFromImports imports
where
  determinePythonEnvironmentFromImports (imports : List String) : Option SandboxEnvironment :=
    if "pygame" ∈ imports then some .PYGAME
    else if "gradio" ∈ imports then some SandboxEnvironment.GRADIO
    else if "streamlit" ∈ imports then some .STREAMLIT
    else if "nicegui" ∈ imports then some .NICEGUI
    else some .PYTHON_CODE_INTERPRETER

/-! ### JS/TS regex-fallback dependency extraction

The tree-sitter primary path of `extract_js_imports` invokes an external
parser; the regex fallback (its `except` branch, code_runner.py lines
400-417) is line-oriented and purely textual, and is embedded exactly.
The two regexes are small enough that greedy matching needs no
backtracking (after a maximal character-class run, the next required
character is never in the class), so they are implemented as deterministic
scanners with `re.findall` left-to-right non-overlapping semantics. -/

/-- ASCII model of the regex class `\w`. -/
def wordChar (c : Char) : Bool := c.isAlphanum || c = '_'

/-- Characters of the regex class `[@\w-]`. -/
def importSpecChar (c : Char) : Bool := c = '@' || wordChar c || c = '-'

/-- Characters of the regex class `[\w-]`. -/
def wordDashChar (c : Char) : Bool := wordChar c || c = '-'

/-- Quote characters matched by the character class of both regexes. -/
def isQuoteChar (c : Char) : Bool := c = Char.ofNat 39 || c = Char.ofNat 34

/-- Substring containment (Python `pat in s`) on character lists. -/
def containsSubList (pat : List Char) : List Char → Bool
  | [] => pat.isEmpty
  | c :: rest => pat.isPrefixOf (c :: rest) || containsSubList pat rest

/-- Match of the regex `[\'"]([@\w-]+(?:/[\w-]+)?)[\'"]` anchored at the
head of the list; returns the captured group and the list remainder after
the whole match. -/
def matchImportSpecAt : List Char → Option (List Char × List Char)
  | [] => none
  | c :: rest =>
    if isQuoteChar c then
      let a := rest.takeWhile importSpecChar
      if a.isEmpty then none
      else
        match rest.drop a.length with
        | '/' :: r3 =>
          let b := r3.takeWhile wordDashChar
          if b.isEmpty then none
          else
            match r3.drop b.length with
            | q :: r4 => if isQuoteChar q then some (a ++ '/' :: b, r4) else none
            | [] => none
        | q :: r4 => if isQuoteChar q then some (a, r4) else none
        | [] => none
    else none

/-- Match of the regex `require\([\'"](@?\w+(?:/\w+)?)[\'"]` anchored at
the head of the list. -/
def matchRequireSpecAt (l : List Char) : Option (List Char × List Char) :=
  if ("require(".data).isPrefixOf l then
    match l.drop 8 with
    | c :: rest =>
      if isQuoteChar c then
        let (atPart, r1) :=
          match rest with
          | '@' :: t => ([('@' : Char)], t)
          | _ => (([] : List Char), rest)
        let a := r1.takeWhile wordChar
        if a.isEmpty then none
        else
          match r1.drop a.length with
          | '/' :: r3 =>
            let b := r3.takeWhile wordChar
            if b.isEmpty then none
            else
              match r3.drop b.length with
              | q :: r4 => if isQuoteChar q then some (atPart ++ a ++ '/' :: b, r4) else none
              | [] => none
          | q :: r4 => if isQuoteChar q then some (atPart ++ a, r4) else none
          | [] => none
      else none
    | [] => none
  else none

/-- Left-to-right non-overlapping scan (`re.findall`): try the matcher at
every position, resuming after the end of each match.  Consuming one fuel
unit per examined position and at least one character per step, the input
length is sufficient fuel. -/
def findallAux (matchAt : List Char → Option (List Char × List Char)) :
    Nat → List Char → List (List Char)
  | 0, _ => []
  | _ + 1, [] => []
  | fuel + 1, c :: rest =>
    match matchAt (c :: rest) with
    | some (g, rest') => g :: findallAux matchAt fuel rest'
    | none => findallAux matchAt fuel rest

/-- Embedding of the regex-fallback branch of `extract_js_imports`
(code_runner.py, lines 402-417).  The Python `packages` variable is a set;
it is represented as a list, so only membership in the result is
meaningful. -/
def extract_js_imports_fallback (code : String) : List String :=
  let lines := splitLines code.data
  let packages : List String := lines.foldl
    (fun acc line =>
      let line := pyStrip line
      if ("import ".data).isPrefixOf line then
        acc ++ (findallAux matchImportSpecAt line.length line).map String.mk
      else if containsSubList ("require(".data) line then
        acc ++ (findallAux matchRequireSpecAt line.length line).map String.mk
      else acc)
    []
  (packages.filter (fun pkg => ("@".data).isPrefixOf pkg.data || !(pkg.data.contains '/'))).map
    firstSlashComponent

/-! ### Markdown code-block extraction

Embedding of the regex scan
`r'```(?P<code_lang>\w+)?\n(?P<code>.*?)```'` with `re.DOTALL` used by
`extract_code_from_markdown`.  After the fence and the greedy optional
word run, the next required character is a newline (never a word
character), and the lazy body simply extends to the first closing fence,
so the scan is deterministic. -/

/-- Backtick character. -/
def btick : Char := Char.ofNat 96

/-- Consume a triple-backtick fence at the head of the list. -/
def dropFence : List Char → Option (List Char)
  | a :: b :: c :: r => if a = btick && b = btick && c = btick then some r else none
  | _ => none

/-- Lazy body match: the shortest character run followed by a closing
fence, together with the remainder after that fence. -/
def findFenceClose : Nat → List Char → Option (List Char × List Char)
  | fuel, l =>
    match dropFence l with
    | some r => some ([], r)
    | none =>
      match fuel, l with
      | 0, _ => none
      | _ + 1, [] => none
      | f + 1, c :: t =>
        match findFenceClose f t with
        | some (body, rest) => some (c :: body, rest)
        | none => none

/-- One fenced block as matched by the code-block regex: the optional
`code_lang` group and the raw `code` group (body). -/
structure FenceMatch where
  code_lang : Option (List Char)
  code : List Char
deriving DecidableEq, Repr

/-- Match the code-block regex anchored at the head of the list; returns
the match and the remainder after it. -/
def matchFenceAt (l : List Char) : Option (FenceMatch × List Char) :=
  match dropFence l with
  | none => none
  | some r =>
    let lang := r.takeWhile wordChar
    match r.drop lang.length with
    | '\n' :: r3 =>
      match findFenceClose r3.length r3 with
      | some (body, rest) =>
          some ({ code_lang := if lang.isEmpty then none else some lang, code := body }, rest)
      | none => none
    | _ => none

/-- Left-to-right non-overlapping scan of the code-block regex
(`re.finditer`), fueled by the input length. -/
def findFencesAux : Nat → List Char → List FenceMatch
  | 0, _ => []
  | _ + 1, [] => []
  | fuel + 1, c :: rest =>
    match matchFenceAt (c :: rest) with
    | some (m, rest') => m :: findFencesAux fuel rest'
    | none => findFencesAux fuel rest

/-- All fenced code blocks of a message, in order of occurrence. -/
def findFences (l : List Char) : List FenceMatch := findFencesAux l.length l

/-- Python `max(xs, key=k)`: the first element with maximal key (`max`
replaces the current best only on a strictly greater key). -/
def pyMaxBy (key : α → Nat) : List α → Option α
  | [] => none
  | x :: xs => some (xs.foldl (fun cur y => if key y > key cur then y else cur) x)

/-- Selection of the canonical block:
`max(matches, key=lambda m: len(m.group('code')))`. -/
def selectedFence (message : String) : Option FenceMatch :=
  pyMaxBy (fun m => m.code.length) (findFences message.data)

/-- Processing that `extract_code_from_markdown` (code_runner.py, lines
495-538) applies to the selected block: strip the body, lower-case the
tag, run the per-family dependency extraction and environment
classification, and apply the auto-mode guard.  The language-family
analyzers invoke external parsers (CPython `ast`, tree-sitter) on the raw
code string, so they are taken as parameters; their AST-level cores are
modelled separately above. -/
def extractFromFence
    (pythonImportsOf : String → List String)
    (pythonEnvOf : String → List String → Option SandboxEnvironment)
    (jsImportsOf : String → List String)
    (jsEnvOf : String → List String → Option SandboxEnvironment)
    (longest_match : FenceMatch) (enable_auto_env : Bool) :
    Option (String × String × (List String × List String) × Option SandboxEnvironment) :=
  let code : String := String.mk (pyStrip longest_match.code)
  let code_lang : String := pyToLower (String.mk (longest_match.code_lang.getD []))
  let res : List String × List String × Option SandboxEnvironment :=
    if code_lang ∈ ["py", "python"] then
      let python_packages := pythonImportsOf code
      (python_packages, [], pythonEnvOf code python_packages)
    else if code_lang ∈ ["js", "javascript", "ts", "typescript", "tsx", "jsx"] then
      let npm_packages := jsImportsOf code
      ([], npm_packages, jsEnvOf code npm_packages)
    else if code_lang ∈ ["html", "xhtml", "xml"]
        || containsSubList ("<!DOCTYPE html>".data) code.data
        || containsSubList ("<html".data) code.data then
      ([], [], some .HTML)
    else ([], [], none)
  if enable_auto_env && res.2.2.isNone then none
  else some (code, code_lang, (res.1, res.2.1), res.2.2)

/-- Embedding of `extract_code_from_markdown`, assembled from the block
scan, the `max` selection, and the per-block processing above. -/
def extract_code_from_markdown
    (pythonImportsOf : String → List String)
    (pythonEnvOf : String → List String → Option SandboxEnvironment)
    (jsImportsOf : String → List String)
    (jsEnvOf : String → List String → Option SandboxEnvironment)
    (message : String) (enable_auto_env : Bool) :
    Option (String × String × (List String × List String) × Option SandboxEnvironment) :=
  match selectedFence message with
  | none => none
  | some longest_match =>
    extractFromFence pythonImportsOf pythonEnvOf jsImportsOf jsEnvOf
      longest_match enable_auto_env

/-! ### Run/edit handlers -/

/-- Normalization applied to the extracted language in
`on_click_code_message_run` (lines 949-953) and `on_run_code`
(lines 985-989): `tsx` becomes `typescript`, and the result is kept
(lower-cased) only when gradio can render it. -/
def normalizeCodeLanguage (code_language : String) : Option String :=
  let code_language := if code_language = "tsx" then "typescript" else code_language
  if code_language ≠ "" ∧ pyToLower code_language ∈ VALID_GRADIO_CODE_LANGUAGES then
    some (pyToLower code_language)
  else none

/-- Whether `on_run_code` (code_runner.py, lines 962-1116) reaches its
environment dispatch and invokes a `run_*` helper, assuming the execution
credential is configured (a missing `E2B_API_KEY` raises before any
remote call).  An unmatched environment (`Auto` reaching the match, or
`None`) raises `ValueError` instead of dispatching.  `on_run_code` never
writes to the sandbox state. -/
def on_run_code_dispatches (sandbox_state : ChatbotSandboxState) : Bool :=
  if sandbox_state.enable_sandbox = false then false
  else
    match sandbox_state.code_to_execute, sandbox_state.code_language with
    | some _, some _ =>
      let sandbox_env :=
        if sandbox_state.sandbox_environment ≠ some .AUTO then sandbox_state.sandbox_environment
        else sandbox_state.auto_selected_sandbox_environment
      match sandbox_env with
      | some .HTML | some .REACT | some .VUE | some .PYGAME | some SandboxEnvironment.GRADIO
      | some .STREAMLIT | some .NICEGUI | some .PYTHON_CODE_INTERPRETER
      | some .JAVASCRIPT_CODE_INTERPRETER => true
      | _ => false
    | _, _ => false

/-- Embedding of `on_edit_code` (code_runner.py, lines 897-914): the
updated state and whether a remote execution is dispatched. -/
def on_edit_code (sandbox_state : ChatbotSandboxState) (sandbox_code : String) :
    ChatbotSandboxState × Bool :=
  if sandbox_state.enable_sandbox = false then (sandbox_state, false)
  else if (pyStripStr sandbox_code).length = 0 ∨ some sandbox_code = sandbox_state.code_to_execute
  then (sandbox_state, false)
  else
    let sandbox_state := { sandbox_state with code_to_execute := some sandbox_code }
    (sandbox_state, on_run_code_dispatches sandbox_state)

/-- Embedding of `on_click_code_message_run` (code_runner.py, lines
916-960) from the extraction step onward: the upstream run-button check
and `extract_code_from_markdown` call are deterministic in the message,
so the handler is modelled as a function of the extraction result
(`none` models both a message without the run button and a failed
extraction, which yield `gr.skip()` without touching the state). -/
def on_click_code_message_run (sandbox_state : ChatbotSandboxState)
    (extract_result : Option (String × String × (List String × List String) × Option SandboxEnvironment)) :
    ChatbotSandboxState × Bool :=
  if sandbox_state.enable_sandbox = false then (sandbox_state, false)
  else
    match extract_result with
    | none => (sandbox_state, false)
    | some (code, code_language, code_dependencies, env_selection) =>
      if sandbox_state.code_to_execute = some code ∧
         sandbox_state.code_language = some code_language ∧
         sandbox_state.code_dependencies = code_dependencies then
        (sandbox_state, false)
      else
        let sandbox_state :=
          { sandbox_state with
            code_to_execute := some code
            code_language := normalizeCodeLanguage code_language
            code_dependencies := code_dependencies
            auto_selected_sandbox_environment :=
              if sandbox_state.sandbox_environment = some .AUTO then env_selection
              else sandbox_state.auto_selected_sandbox_environment }
        (sandbox_state, on_run_code_dispatches sandbox_state)

/-! ### Remote operations of the service-style sandbox handlers

Each `run_*` helper performs a fixed sequence of calls against the remote
sandbox service.  The sequence is embedded as a list of operations in
source order.  The two declared-dependency installers
(`install_pip_dependencies` / `install_npm_dependencies`) are dedicated
functions in the source and get dedicated constructors; they stand for
`uv pip install --system <deps>` and `npm install <deps>` commands and
are emitted only when the dependency list is non-empty (the installers
return immediately on an empty list). -/

inductive SandboxOp where
  | createSandbox (template : Option String)
  | installPip (deps : List String)
  | installNpm (deps : List String)
  | runCommand (cmd : String) (background : Bool)
  | makeDir (path : String)
  | writeFile (path : String)
  | getHost (port : Nat)
deriving DecidableEq, Repr

/-- Embedding of `install_pip_dependencies`. -/
def install_pip_dependencies (deps : List String) : List SandboxOp :=
  if deps.isEmpty then [] else [.installPip deps]

/-- Embedding of `install_npm_dependencies`. -/
def install_npm_dependencies (deps : List String) : List SandboxOp :=
  if deps.isEmpty then [] else [.installNpm deps]

/-- Remote operations of `run_html_sandbox` (code_runner.py, lines 651-679). -/
def run_html_sandbox_ops (code_dependencies : List String × List String) : List SandboxOp :=
  [.createSandbox none]
  ++ install_pip_dependencies code_dependencies.1
  ++ install_npm_dependencies code_dependencies.2
  ++ [.makeDir "myhtml",
      .writeFile "~/myhtml/main.html",
      .runCommand "python -m http.server 3000" true,
      .getHost 3000]

/-- Remote operations of `run_react_sandbox` (lines 682-711). -/
def run_react_sandbox_ops (code_dependencies : List String × List String) : List SandboxOp :=
  [.createSandbox (some "nextjs-developer")]
  ++ install_pip_dependencies code_dependencies.1
  ++ install_npm_dependencies code_dependencies.2
  ++ [.makeDir "pages",
      .writeFile "~/pages/index.tsx",
      .getHost 3000]

/-- Remote operations of `run_vue_sandbox` (lines 714-742): the code file
is written before the declared dependencies are installed. -/
def run_vue_sandbox_ops (code_dependencies : List String × List String) : List SandboxOp :=
  [.createSandbox (some "vue-developer"),
   .writeFile "~/app.vue"]
  ++ install_pip_dependencies code_dependencies.1
  ++ install_npm_dependencies code_dependencies.2
  ++ [.getHost 3000]

/-- Remote operations of `run_pygame_sandbox` (lines 745-789). -/
def run_pygame_sandbox_ops (code_dependencies : List String × List String) : List SandboxOp :=
  [.createSandbox none,
   .makeDir "mygame",
   .writeFile "~/mygame/main.py",
   .runCommand "pip install uv" false,
   .runCommand "uv pip install --system pygame pygbag black" false]
  ++ install_pip_dependencies code_dependencies.1
  ++ install_npm_dependencies code_dependencies.2
  ++ [.runCommand "pygbag --build ~/mygame" false,
      .runCommand "python -m http.server 3000" true,
      .getHost 3000]

/-- Remote operations of `run_nicegui_sandbox` (lines 792-833). -/
def run_nicegui_sandbox_ops (code_dependencies : List String × List String) : List SandboxOp :=
  [.createSandbox none,
   .runCommand "pip install --upgrade nicegui" false,
   .makeDir "mynicegui",
   .writeFile "~/mynicegui/main.py"]
  ++ install_pip_dependencies code_dependencies.1
  ++ install_npm_dependencies code_dependencies.2
  ++ [.runCommand "python ~/mynicegui/main.py" true,
      .getHost 8080]

/-- Remote operations of `run_gradio_sandbox` (lines 836-864). -/
def run_gradio_sandbox_ops (code_dependencies : List String × List String) : List SandboxOp :=
  [.createSandbox (some "gradio-developer"),
   .writeFile "~/app.py"]
  ++ install_pip_dependencies code_dependencies.1
  ++ install_npm_dependencies code_dependencies.2
  ++ [.getHost 7860]

/-- Remote operations of `run_streamlit_sandbox` (lines 867-895). -/
def run_streamlit_sandbox_ops (code_dependencies : List String × List String) : List SandboxOp :=
  [.createSandbox none,
   .runCommand "pip install --upgrade streamlit" false,
   .makeDir "mystreamlit",
   .writeFile "~/mystreamlit/app.py"]
  ++ install_pip_dependencies code_dependencies.1
  ++ install_npm_dependencies code_dependencies.2
  ++ [.runCommand "streamlit run ~/mystreamlit/app.py --server.port 8501 --server.headless true" true,
      .getHost 8501]

/-- Classifier: declared-dependency installation step. -/
def isDeclaredInstall : SandboxOp → Bool
  | .installPip _ => true
  | .installNpm _ => true
  | _ => false

/-- Classifier: the write of the code file. -/
def isCodeWrite : SandboxOp → Bool
  | .writeFile _ => true
  | _ => false

/-- Classifier: start of a serving process (a background command). -/
def isServeStart : SandboxOp → Bool
  | .runCommand _ background => background
  | _ => false

/-- Classifier: the PyGame build step. -/
def isBuildStep : SandboxOp → Bool
  | .runCommand cmd false => cmd = "pygbag --build ~/mygame"
  | _ => false

/-- Decidable check that in `tr` every operation satisfying `p` occurs
strictly before every operation satisfying `q`: once an operation
satisfying `q` has occurred, no later operation satisfies `p`. -/
def opsOrdered (p q : SandboxOp → Bool) : List SandboxOp → Bool
  | [] => true
  | x :: xs => (!(q x) || xs.all (fun y => !(p y))) && opsOrdered p q xs

/-! ### Helper lemmas -/

/-- Characterization of the empty string by its length. -/
lemma string_length_eq_zero_iff (s : String) : s.length = 0 ↔ s = "" := by
  cases s with
  | mk data =>
    constructor
    · intro h
      have : data = [] := List.length_eq_zero.mp h
      simp [this]
    · intro h
      have : data = [] := by
        have := congrArg String.data h
        simpa using this
      simp [String.length, this]

/-- A `takeWhile` that keeps only characters different from `c` never
contains `c`. -/
lemma contains_takeWhile_ne_eq_false (c : Char) (l : List Char) :
    (l.takeWhile (fun x => x ≠ c)).contains c = false := by
  by_contra h
  rw [Bool.not_eq_false] at h
  have hmem : c ∈ l.takeWhile (fun x => x ≠ c) := List.mem_of_elem_eq_true h
  have := List.mem_takeWhile_imp hmem
  simp at this

/-- Python `max(xs, key=k)` (first maximum wins) splits its input into a
strictly smaller prefix, the returned element, and a no-larger remainder. -/
lemma pyFoldMax_spec {α : Type} (key : α → Nat) (xs : List α) (x : α) :
    ∃ l1 l2,
      x :: xs = l1 ++ (xs.foldl (fun cur y => if key y > key cur then y else cur) x) :: l2 ∧
      (∀ y ∈ l1, key y < key (xs.foldl (fun cur y => if key y > key cur then y else cur) x)) ∧
      (∀ y ∈ x :: xs, key y ≤ key (xs.foldl (fun cur y => if key y > key cur then y else cur) x)) := by
  induction xs generalizing x with
  | nil =>
    exact ⟨[], [], rfl, by simp, by simp⟩
  | cons y ys ih =>
    simp only [List.foldl_cons]
    by_cases h : key y > key x
    · obtain ⟨l1, l2, hdec, hlt, hub⟩ := ih y
      rw [if_pos h]
      refine ⟨x :: l1, l2, ?_, ?_, ?_⟩
      · rw [List.cons_append, ← hdec]
      · intro z hz
        rcases List.mem_cons.mp hz with rfl | hz'
        · exact lt_of_lt_of_le h (hub y (List.mem_cons_self _ _))
        · exact hlt z hz'
      · intro z hz
        rcases List.mem_cons.mp hz with rfl | hz'
        · exact le_of_lt (lt_of_lt_of_le h (hub y (List.mem_cons_self _ _)))
        · exact hub z hz'
    · obtain ⟨l1, l2, hdec, hlt, hub⟩ := ih x
      rw [if_neg h]
      cases l1 with
      | nil =>
        simp only [List.nil_append] at hdec
        injection hdec with hx hys
        refine ⟨[], y :: ys, ?_, by simp, ?_⟩
        · rw [List.nil_append, ← hx]
        · intro z hz
          rcases List.mem_cons.mp hz with rfl | hz'
          · exact hub z (List.mem_cons_self _ _)
          · rcases List.mem_cons.mp hz' with rfl | hz''
            · exact le_trans (le_of_not_lt h) (hub x (List.mem_cons_self _ _))
            · exact hub z (List.mem_cons_of_mem _ hz'')
      | cons a l1' =>
        injection hdec with ha hys
        have hxr : key x < key (ys.foldl (fun cur y => if key y > key cur then y else cur) x) := by
          have := hlt a (List.mem_cons_self _ _)
          rwa [← ha] at this
        refine ⟨x :: y :: l1', l2, ?_, ?_, ?_⟩
        · rw [List.cons_append, List.cons_append]
          exact congrArg (fun t => x :: y :: t) hys
        · intro z hz
          rcases List.mem_cons.mp hz with rfl | hz'
          · exact hxr
          · rcases List.mem_cons.mp hz' with rfl | hz''
            · exact lt_of_le_of_lt (le_of_not_lt h) hxr
            · exact hlt z (List.mem_cons_of_mem _ hz'')
        · intro z hz
          rcases List.mem_cons.mp hz with rfl | hz'
          · exact hub z (List.mem_cons_self _ _)
          · rcases List.mem_cons.mp hz' with rfl | hz''
            · exact le_trans (le_of_not_lt h) (hub x (List.mem_cons_self _ _))
            · exact hub z (List.mem_cons_of_mem _ hz'')

/-! ### Claim C1 -/

/-- Concrete locked state used for claim C1: the sandbox has been enabled
and the first round has been sent, so `enabled_round = 1`. -/
def lockedStateC1 : ChatbotSandboxState :=
  { create_chatbot_sandbox_state 8 with
    enable_sandbox := true
    sandbox_environment := some SandboxEnvironment.GRADIO
    enabled_round := 1 }

/-- Claim C1, counterexample: on a state with `enabled_round > 0`,
`update_sandbox_config` still changes both `sandbox_environment` and
`sandbox_instruction`; the function has no lock guard, so the claimed
invariant fails. -/
theorem claim_C1_counterexample :
    0 < lockedStateC1.enabled_round ∧
    (update_sandbox_config true .STREAMLIT lockedStateC1).sandbox_environment ≠
      lockedStateC1.sandbox_environment ∧
    (update_sandbox_config true .STREAMLIT lockedStateC1).sandbox_instruction ≠
      lockedStateC1.sandbox_instruction := by
  refine ⟨by decide, by decide, by decide⟩

/-- Claim C1, amended: `update_system_prompt_both` does leave
`sandbox_instruction` unchanged on a locked side (`enabled_round > 0`),
but `update_sandbox_config` overwrites `enable_sandbox`,
`sandbox_environment` and `sandbox_instruction` unconditionally,
regardless of the lock; the pre-lock restriction is enforced only by the
surrounding UI wiring. -/
theorem claim_C1_amended (system_prompt : String) (st0 st1 : ChatbotSandboxState)
    (enable : Bool) (env : SandboxEnvironment) (st : ChatbotSandboxState) :
    (0 < st0.enabled_round → (update_system_prompt_both system_prompt st0 st1).1 = st0) ∧
    (0 < st1.enabled_round → (update_system_prompt_both system_prompt st0 st1).2 = st1) ∧
    update_sandbox_config enable env st =
      { st with
        enable_sandbox := enable
        sandbox_environment := some env
        sandbox_instruction := some (DEFAULT_SANDBOX_INSTRUCTIONS env) } := by
  refine ⟨?_, ?_, rfl⟩
  · intro h
    have h0 : ¬ (st0.enabled_round = 0) := by omega
    simp [update_system_prompt_both, h0]
  · intro h
    have h1 : ¬ (st1.enabled_round = 0) := by omega
    simp [update_system_prompt_both, h1]

/-- Claim C1, witness: the amended statement applied at concrete inputs. -/
theorem claim_C1_witness :
    (update_system_prompt_both "p" lockedStateC1 lockedStateC1).1 = lockedStateC1 ∧
    (update_system_prompt_both "p" lockedStateC1 lockedStateC1).2 = lockedStateC1 ∧
    update_sandbox_config false .HTML (create_chatbot_sandbox_state 1) =
      { create_chatbot_sandbox_state 1 with
        enable_sandbox := false
        sandbox_environment := some SandboxEnvironment.HTML
        sandbox_instruction := some (DEFAULT_SANDBOX_INSTRUCTIONS .HTML) } :=
  ⟨(claim_C1_amended "p" lockedStateC1 lockedStateC1 false .HTML
      (create_chatbot_sandbox_state 1)).1 (by decide),
   (claim_C1_amended "p" lockedStateC1 lockedStateC1 false .HTML
      (create_chatbot_sandbox_state 1)).2.1 (by decide),
   (claim_C1_amended "p" lockedStateC1 lockedStateC1 false .HTML
      (create_chatbot_sandbox_state 1)).2.2⟩

/-! ### Claim C2 -/

/-- Claim C2, counterexample: in `run_vue_sandbox` with a non-empty
declared python dependency list, the declared-dependency installation
does not precede the code write (the file is written first). -/
theorem claim_C2_counterexample :
    opsOrdered isDeclaredInstall isCodeWrite (run_vue_sandbox_ops (["numpy"], [])) = false := by
  decide

/-- Claim C2, amended: in every service-style handler the code write
precedes any serving-process start, and in `run_pygame_sandbox` the build
precedes serving; declared-dependency installation precedes the code
write only in the HTML and React handlers, while the Vue, Gradio,
Streamlit, NiceGUI and PyGame handlers write the code file before
installing the declared dependencies. -/
theorem claim_C2_amended (code_dependencies : List String × List String) :
    opsOrdered isCodeWrite isServeStart (run_html_sandbox_ops code_dependencies) = true ∧
    opsOrdered isCodeWrite isServeStart (run_react_sandbox_ops code_dependencies) = true ∧
    opsOrdered isCodeWrite isServeStart (run_vue_sandbox_ops code_dependencies) = true ∧
    opsOrdered isCodeWrite isServeStart (run_pygame_sandbox_ops code_dependencies) = true ∧
    opsOrdered isCodeWrite isServeStart (run_nicegui_sandbox_ops code_dependencies) = true ∧
    opsOrdered isCodeWrite isServeStart (run_gradio_sandbox_ops code_dependencies) = true ∧
    opsOrdered isCodeWrite isServeStart (run_streamlit_sandbox_ops code_dependencies) = true ∧
    opsOrdered isBuildStep isServeStart (run_pygame_sandbox_ops code_dependencies) = true ∧
    opsOrdered isDeclaredInstall isCodeWrite (run_html_sandbox_ops code_dependencies) = true ∧
    opsOrdered isDeclaredInstall isCodeWrite (run_react_sandbox_ops code_dependencies) = true ∧
    opsOrdered isCodeWrite isDeclaredInstall (run_vue_sandbox_ops code_dependencies) = true ∧
    opsOrdered isCodeWrite isDeclaredInstall (run_gradio_sandbox_ops code_dependencies) = true ∧
    opsOrdered isCodeWrite isDeclaredInstall (run_streamlit_sandbox_ops code_dependencies) = true ∧
    opsOrdered isCodeWrite isDeclaredInstall (run_nicegui_sandbox_ops code_dependencies) = true ∧
    opsOrdered isCodeWrite isDeclaredInstall (run_pygame_sandbox_ops code_dependencies) = true := by
  obtain ⟨pdeps, ndeps⟩ := code_dependencies
  rcases pdeps with _ | ⟨p, ps⟩ <;> rcases ndeps with _ | ⟨n, ns⟩ <;>
    exact ⟨rfl, rfl, rfl, rfl, rfl, rfl, rfl, rfl, rfl, rfl, rfl, rfl, rfl, rfl, rfl⟩

/-! ### Claim C9 -/

/-- Claim C9, counterexample: on an enabled state with pending code `"x"`,
editing with the non-empty text `" "` (which differs from the pending
code) leaves the state unchanged, because the handler tests the stripped
text; the claim as stated requires `code_to_execute` to become `" "`. -/
theorem claim_C9_counterexample :
    ({ create_chatbot_sandbox_state 8 with
       enable_sandbox := true
       code_to_execute := some "x" } : ChatbotSandboxState).enable_sandbox = true ∧
    (" " : String) ≠ "" ∧
    ({ create_chatbot_sandbox_state 8 with
       enable_sandbox := true
       code_to_execute := some "x" } : ChatbotSandboxState).code_to_execute ≠ some " " ∧
    (on_edit_code
      { create_chatbot_sandbox_state 8 with
        enable_sandbox := true
        code_to_execute := some "x" } " ").1.code_to_execute = some "x" := by
  refine ⟨rfl, by decide, by decide, by decide⟩

/-- Claim C9, amended: for an enabled state and an edit text that is
non-blank (non-empty after stripping whitespace) and differs from the
pending code, `on_edit_code` updates only `code_to_execute`; when the
sandbox is disabled, the stripped text is empty, or the text equals the
pending code, the state is returned unchanged and nothing is
dispatched. -/
theorem claim_C9_amended (st : ChatbotSandboxState) (text : String) :
    (st.enable_sandbox = true → pyStripStr text ≠ "" → st.code_to_execute ≠ some text →
      on_edit_code st text =
        ({ st with code_to_execute := some text },
         on_run_code_dispatches { st with code_to_execute := some text })) ∧
    (st.enable_sandbox = false ∨ pyStripStr text = "" ∨ st.code_to_execute = some text →
      on_edit_code st text = (st, false)) := by
  constructor
  · intro hen hne hdiff
    have h1 : ¬ (st.enable_sandbox = false) := by simp [hen]
    have hlen : ¬ ((pyStripStr text).length = 0) := fun h =>
      hne ((string_length_eq_zero_iff _).mp h)
    have hne2 : ¬ (some text = st.code_to_execute) := fun h => hdiff h.symm
    simp [on_edit_code, h1, hlen, hne2]
  · intro h
    rcases h with h | h | h
    · simp [on_edit_code, h]
    · have hlen : (pyStripStr text).length = 0 := by simp [h]
      by_cases he : st.enable_sandbox = false
      · simp [on_edit_code, he]
      · simp [on_edit_code, he, hlen]
    · by_cases he : st.enable_sandbox = false
      · simp [on_edit_code, he]
      · simp [on_edit_code, he, h]

/-- Claim C9, witness: the amended statement applied at concrete inputs
(an enabled state, a fresh non-blank edit text, and a blank edit). -/
theorem claim_C9_witness :
    on_edit_code
      { create_chatbot_sandbox_state 8 with enable_sandbox := true } "print(1)" =
      ({ { create_chatbot_sandbox_state 8 with enable_sandbox := true } with
         code_to_execute := some "print(1)" },
       on_run_code_dispatches
         { { create_chatbot_sandbox_state 8 with enable_sandbox := true } with
           code_to_execute := some "print(1)" }) ∧
    on_edit_code
      { create_chatbot_sandbox_state 8 with enable_sandbox := true } "  " =
      ({ create_chatbot_sandbox_state 8 with enable_sandbox := true }, false) :=
  ⟨(claim_C9_amended
      { create_chatbot_sandbox_state 8 with enable_sandbox := true } "print(1)").1
      rfl (by decide) (by decide),
   (claim_C9_amended
      { create_chatbot_sandbox_state 8 with enable_sandbox := true } "  ").2
      (Or.inr (Or.inl (by decide)))⟩

/-! ### Claim C3 -/

/-- Concrete configured state for claim C3: sandbox enabled with the
React environment selected. -/
def configuredReactStateC3 : ChatbotSandboxState :=
  update_sandbox_config true .REACT (create_chatbot_sandbox_state 8)

/-- Extraction result of a message whose selected block is tagged `tsx`
(the tag `extract_code_from_markdown` produces before any
normalization). -/
def tsxExtractResultC3 :
    Option (String × String × (List String × List String) × Option SandboxEnvironment) :=
  some ("const a = 1", "tsx", ([], []), some .JAVASCRIPT_CODE_INTERPRETER)

/-- Claim C3: the handler's own `skip if no changes` guard fails on a
repeated identical extraction whose tag is `tsx`, because the stored
`code_language` was normalized to `typescript` while the freshly
extracted tag is still `tsx`; both invocations dispatch a remote
execution, contradicting the documented idempotence (exactly one
dispatch). -/
theorem claim_C3_code_bug :
    (on_click_code_message_run configuredReactStateC3 tsxExtractResultC3).2 = true ∧
    (on_click_code_message_run
      (on_click_code_message_run configuredReactStateC3 tsxExtractResultC3).1
      tsxExtractResultC3).2 = true ∧
    (on_click_code_message_run configuredReactStateC3 tsxExtractResultC3).1.code_language =
      some "typescript" := by
  refine ⟨by decide, by decide, by decide⟩

/-! ### Claim C4 -/

/-- Claim C4, counterexample: on the fallback path, the scoped specifier
`@scope/name` in an import statement is not returned as a single unit;
the returned list is `["@scope"]`. -/
theorem claim_C4_counterexample :
    extract_js_imports_fallback "import x from \"@scope/name\"" = ["@scope"] ∧
    "@scope/name" ∉ extract_js_imports_fallback "import x from \"@scope/name\"" := by
  refine ⟨by decide, by decide⟩

/-- Claim C4, amended: the regex fallback also truncates at the first
slash (its final comprehension maps `pkg.split('/')[0]` over every kept
specifier), so no returned package name contains `/`; a scoped
`@scope/name` specifier contributes `@scope`, retaining only the leading
`@`. -/
theorem claim_C4_amended (code : String) (pkg : String) :
    (pkg ∈ extract_js_imports_fallback code → pkg.data.contains '/' = false) ∧
    extract_js_imports_fallback "import x from \"@scope/name\"" = ["@scope"] := by
  constructor
  · intro hmem
    unfold extract_js_imports_fallback at hmem
    simp only [List.mem_map] at hmem
    obtain ⟨q, _, hq⟩ := hmem
    rw [← hq]
    exact contains_takeWhile_ne_eq_false '/' q.data
  · decide

/-- Claim C4, witness: the amended statement applied at the scoped
specifier input. -/
theorem claim_C4_witness : ("@scope" : String).data.contains '/' = false :=
  (claim_C4_amended "import x from \"@scope/name\"" "@scope").1 (by decide)

/-! ### Claim C5 -/

/-- Fragment `importlib.import_module("requests.adapters")`. -/
def importModuleFragmentC5 : PyNode :=
  .Module [.ExprStmt (.Call (.Attribute (.Name "importlib") "import_module")
    [.Str "requests.adapters"])]

/-- Fragment `__import__("requests")` (a bare dynamic-import call). -/
def bareImportFragmentC5 : PyNode :=
  .Module [.ExprStmt (.Call (.Name "__import__") [.Str "requests"])]

/-- Claim C5: `importlib.import_module("x")` string arguments are
collected (first dotted component), but a bare `__import__("x")` call
contributes nothing, although the source comments and the spec claim it
is handled: its function node is a plain `Name`, and the `Name` branch
only accepts the identifier `importlib` while the attribute branch
requires an attribute access. -/
theorem claim_C5_code_bug :
    collectPythonPackages importModuleFragmentC5 = ["requests"] ∧
    collectPythonPackages bareImportFragmentC5 = [] := by
  refine ⟨by decide, by decide⟩

/-! ### Claim C7 -/

/-- A cons whose head is neither signal name scans on. -/
lemma findPySignal_cons_not_signal (n : PyNode) (rest : List PyNode)
    (hgr : n ≠ .Name "gr") (hst : n ≠ .Name "st") :
    findPySignal (n :: rest) = findPySignal rest := by
  cases n <;> simp_all [findPySignal]

/-- Scanning a list that reaches a `gr` name with no earlier `st` name
yields the Gradio tag. -/
lemma findPySignal_append_gr (pre post : List PyNode)
    (hst : (PyNode.Name "st") ∉ pre) :
    findPySignal (pre ++ PyNode.Name "gr" :: post) = some SandboxEnvironment.GRADIO := by
  induction pre with
  | nil => simp [findPySignal]
  | cons n pre' ih =>
    have hst' : (PyNode.Name "st") ∉ pre' := fun h => hst (List.mem_cons_of_mem _ h)
    have hn : n ≠ PyNode.Name "st" := fun h => hst (h ▸ List.mem_cons_self _ _)
    by_cases hgr : n = PyNode.Name "gr"
    · subst hgr
      simp [findPySignal]
    · rw [List.cons_append, findPySignal_cons_not_signal n _ hgr hn]
      exact ih hst'

/-- Scanning a list without signal names yields nothing. -/
lemma findPySignal_eq_none (l : List PyNode)
    (hgr : (PyNode.Name "gr") ∉ l) (hst : (PyNode.Name "st") ∉ l) :
    findPySignal l = none := by
  induction l with
  | nil => rfl
  | cons n rest ih =>
    have hgrn : n ≠ PyNode.Name "gr" := fun h => hgr (List.mem_cons.mpr (Or.inl h.symm))
    have hstn : n ≠ PyNode.Name "st" := fun h => hst (List.mem_cons.mpr (Or.inl h.symm))
    rw [findPySignal_cons_not_signal n rest hgrn hstn]
    exact ih (fun h => hgr (List.mem_cons_of_mem _ h)) (fun h => hst (List.mem_cons_of_mem _ h))

/-- Claim C7: if `gr` occurs as a bare name in the walk of a parsed
fragment with no earlier `st` name, the classifier returns the Gradio
tag for every import list (the AST check precedes the import checks);
and with no signal name and no framework import it returns the Python
interpreter tag, never `none`. -/
theorem claim_C7_confirmed (tree : PyNode) (imports : List String) :
    ((∃ pre post, walkPy tree = pre ++ PyNode.Name "gr" :: post ∧ (PyNode.Name "st") ∉ pre) →
      determine_python_environment (some tree) imports = some SandboxEnvironment.GRADIO) ∧
    ((PyNode.Name "gr") ∉ walkPy tree → (PyNode.Name "st") ∉ walkPy tree →
      "pygame" ∉ imports → "gradio" ∉ imports → "streamlit" ∉ imports → "nicegui" ∉ imports →
      determine_python_environment (some tree) imports =
        some SandboxEnvironment.PYTHON_CODE_INTERPRETER) := by
  constructor
  · rintro ⟨pre, post, hdec, hst⟩
    have h := findPySignal_append_gr pre post hst
    rw [← hdec] at h
    simp [determine_python_environment, h]
  · intro hgr hst h1 h2 h3 h4
    have h := findPySignal_eq_none _ hgr hst
    simp [determine_python_environment, h,
      determine_python_environment.determinePythonEnvironmentFromImports, h1, h2, h3, h4]

/-- Fragment whose body is the single expression statement `gr`. -/
def grSignalFragmentC7 : PyNode := .Module [.ExprStmt (.Name "gr")]

/-- Claim C7, witness: the fragment `gr` classifies as Gradio even with
`pygame` among the imports, and an empty fragment with no imports
classifies as the Python interpreter. -/
theorem claim_C7_witness :
    determine_python_environment (some grSignalFragmentC7) ["pygame"] =
      some SandboxEnvironment.GRADIO ∧
    determine_python_environment (some (.Module [])) ([] : List String) =
      some SandboxEnvironment.PYTHON_CODE_INTERPRETER := by
  constructor
  · exact (claim_C7_confirmed grSignalFragmentC7 ["pygame"]).1
      ⟨[.Module [.ExprStmt (.Name "gr")], .ExprStmt (.Name "gr")], [], rfl, by simp⟩
  · exact (claim_C7_confirmed (.Module []) []).2
      (by simp [walkPy, walkAux, pySize, pySizeList, pyChildren])
      (by simp [walkPy, walkAux, pySize, pySizeList, pyChildren])
      (by simp) (by simp) (by simp) (by simp)

/-! ### Claims C6, C8, C10 -/

/-- With auto mode disabled, the per-block processing always succeeds and
returns the stripped body as the code component. -/
lemma extractFromFence_false_eq
    (pyI : String → List String) (pyE : String → List String → Option SandboxEnvironment)
    (jsI : String → List String) (jsE : String → List String → Option SandboxEnvironment)
    (m : FenceMatch) :
    ∃ lang deps env, extractFromFence pyI pyE jsI jsE m false =
      some (String.mk (pyStrip m.code), lang, deps, env) := by
  exact ⟨_, _, _, rfl⟩

/-- On a block whose lower-cased tag is outside both the Python and the
JS/TS families, the per-block processing returns empty dependency lists
and classifies as HTML exactly when the tag is in the markup list or the
stripped body contains one of the two markup markers. -/
lemma extractFromFence_nonPyJs
    (pyI : String → List String) (pyE : String → List String → Option SandboxEnvironment)
    (jsI : String → List String) (jsE : String → List String → Option SandboxEnvironment)
    (m : FenceMatch)
    (hpy : pyToLower (String.mk (m.code_lang.getD [])) ∉ (["py", "python"] : List String))
    (hjs : pyToLower (String.mk (m.code_lang.getD [])) ∉
      (["js", "javascript", "ts", "typescript", "tsx", "jsx"] : List String)) :
    extractFromFence pyI pyE jsI jsE m false =
      some (String.mk (pyStrip m.code), pyToLower (String.mk (m.code_lang.getD [])), ([], []),
        if pyToLower (String.mk (m.code_lang.getD [])) ∈ (["html", "xhtml", "xml"] : List String)
            || containsSubList ("<!DOCTYPE html>".data) (String.mk (pyStrip m.code)).data
            || containsSubList ("<html".data) (String.mk (pyStrip m.code)).data
        then some SandboxEnvironment.HTML else none) := by
  simp only [extractFromFence]
  rw [if_neg hpy, if_neg hjs]
  by_cases hcond : (pyToLower (String.mk (m.code_lang.getD [])) ∈
        (["html", "xhtml", "xml"] : List String)
      || containsSubList ("<!DOCTYPE html>".data) (String.mk (pyStrip m.code)).data
      || containsSubList ("<html".data) (String.mk (pyStrip m.code)).data : Bool) = true
  · simp only [hcond, if_true]
    rfl
  · simp only [hcond, if_false]
    rfl

/-- Claim C6: with one or more fenced blocks the extractor returns the
first block of maximal body length (stripped), and with zero fenced
blocks it returns `none`. -/
theorem claim_C6_confirmed
    (pyI : String → List String) (pyE : String → List String → Option SandboxEnvironment)
    (jsI : String → List String) (jsE : String → List String → Option SandboxEnvironment)
    (message : String) :
    (findFences message.data = [] →
      extract_code_from_markdown pyI pyE jsI jsE message false = none) ∧
    (∀ f fs, findFences message.data = f :: fs →
      ∃ pre sel post lang deps env,
        f :: fs = pre ++ sel :: post ∧
        (∀ g ∈ pre, g.code.length < sel.code.length) ∧
        (∀ g ∈ f :: fs, g.code.length ≤ sel.code.length) ∧
        extract_code_from_markdown pyI pyE jsI jsE message false =
          some (String.mk (pyStrip sel.code), lang, deps, env)) := by
  constructor
  · intro h
    simp [extract_code_from_markdown, selectedFence, h, pyMaxBy]
  · intro f fs h
    obtain ⟨l1, l2, hdec, hlt, hub⟩ := pyFoldMax_spec (fun m => m.code.length) fs f
    obtain ⟨lang, deps, env, hff⟩ := extractFromFence_false_eq pyI pyE jsI jsE
      (fs.foldl (fun cur y => if y.code.length > cur.code.length then y else cur) f)
    have hsel : selectedFence message =
        some (fs.foldl (fun cur y => if y.code.length > cur.code.length then y else cur) f) := by
      simp only [selectedFence, h, pyMaxBy]
    refine ⟨l1, _, l2, lang, deps, env, hdec, hlt, hub, ?_⟩
    simp only [extract_code_from_markdown, hsel]
    exact hff

/-- Claim C6, witness: the confirmed statement applied to a message with
two blocks, where the second has the strictly longer body. -/
theorem claim_C6_witness :
    (∃ pre sel post lang deps env,
      [({ code_lang := some "py".data, code := "A\n".data } : FenceMatch),
       { code_lang := none, code := "BB\n".data }] = pre ++ sel :: post ∧
      (∀ g ∈ pre, g.code.length < sel.code.length) ∧
      (∀ g ∈ [({ code_lang := some "py".data, code := "A\n".data } : FenceMatch),
              ({ code_lang := none, code := "BB\n".data } : FenceMatch)],
        g.code.length ≤ sel.code.length) ∧
      extract_code_from_markdown (fun _ => []) (fun _ _ => none) (fun _ => []) (fun _ _ => none)
        "```py\nA\n```x```\nBB\n```" false =
        some (String.mk (pyStrip sel.code), lang, deps, env)) ∧
    extract_code_from_markdown (fun _ => []) (fun _ _ => none) (fun _ => []) (fun _ _ => none)
      "no fenced block here" false = none :=
  ⟨(claim_C6_confirmed (fun _ => []) (fun _ _ => none) (fun _ => []) (fun _ _ => none)
      "```py\nA\n```x```\nBB\n```").2
      { code_lang := some "py".data, code := "A\n".data }
      [{ code_lang := none, code := "BB\n".data }]
      (by decide),
   (claim_C6_confirmed (fun _ => []) (fun _ _ => none) (fun _ => []) (fun _ _ => none)
      "no fenced block here").1 (by decide)⟩

/-- Claim C8, counterexample: a block carrying the explicit non-empty tag
`css` (outside the Python, JS/TS and markup tag families) whose body
contains `<html` is classified as HTML by substring sniffing, so the
sniffing is not restricted to blocks without a language tag. -/
theorem claim_C8_counterexample :
    extract_code_from_markdown (fun _ => []) (fun _ _ => none) (fun _ => []) (fun _ _ => none)
      "```css\n<html>hello\n```" false =
      some ("<html>hello", "css", ([], []), some SandboxEnvironment.HTML) ∧
    ("css" : String) ∉ (["html", "xhtml", "xml"] : List String) ∧
    ("css" : String) ∉ (["py", "python"] : List String) ∧
    ("css" : String) ∉ (["js", "javascript", "ts", "typescript", "tsx", "jsx"] : List String) ∧
    ("css" : String) ≠ "" := by
  refine ⟨by decide, by decide, by decide, by decide, by decide⟩

/-- Claim C8, amended: markup sniffing applies to every block whose
lower-cased tag is outside the Python and JS/TS families, whether or not
a tag was supplied: such a block is classified HTML exactly when its tag
is `html`/`xhtml`/`xml` or its stripped body contains `<!DOCTYPE html>`
or `<html` as a substring, and otherwise gets no environment. -/
theorem claim_C8_amended
    (pyI : String → List String) (pyE : String → List String → Option SandboxEnvironment)
    (jsI : String → List String) (jsE : String → List String → Option SandboxEnvironment)
    (message : String) (f : FenceMatch)
    (hsel : selectedFence message = some f)
    (hpy : pyToLower (String.mk (f.code_lang.getD [])) ∉ (["py", "python"] : List String))
    (hjs : pyToLower (String.mk (f.code_lang.getD [])) ∉
      (["js", "javascript", "ts", "typescript", "tsx", "jsx"] : List String)) :
    extract_code_from_markdown pyI pyE jsI jsE message false =
      some (String.mk (pyStrip f.code), pyToLower (String.mk (f.code_lang.getD [])), ([], []),
        if pyToLower (String.mk (f.code_lang.getD [])) ∈ (["html", "xhtml", "xml"] : List String)
            || containsSubList ("<!DOCTYPE html>".data) (String.mk (pyStrip f.code)).data
            || containsSubList ("<html".data) (String.mk (pyStrip f.code)).data
        then some SandboxEnvironment.HTML else none) := by
  simp only [extract_code_from_markdown, hsel]
  exact extractFromFence_nonPyJs pyI pyE jsI jsE f hpy hjs

/-- Claim C8, witness: the amended statement applied to a css-tagged
block without markup markers, which gets no environment. -/
theorem claim_C8_witness :
    extract_code_from_markdown (fun _ => []) (fun _ _ => none) (fun _ => []) (fun _ _ => none)
      "```css\nhello\n```" false = some ("hello", "css", ([], []), none) := by
  rw [claim_C8_amended (fun _ => []) (fun _ _ => none) (fun _ => []) (fun _ _ => none)
    "```css\nhello\n```" { code_lang := some "css".data, code := "hello\n".data }
    (by decide) (by decide) (by decide)]
  decide

/-- Claim C10: when the selected block's lower-cased tag is outside both
the Python family and the JS/TS family, extraction returns empty Python
and npm dependency lists, whatever the block body contains. -/
theorem claim_C10_confirmed
    (pyI : String → List String) (pyE : String → List String → Option SandboxEnvironment)
    (jsI : String → List String) (jsE : String → List String → Option SandboxEnvironment)
    (message : String) (f : FenceMatch)
    (hsel : selectedFence message = some f)
    (hpy : pyToLower (String.mk (f.code_lang.getD [])) ∉ (["py", "python"] : List String))
    (hjs : pyToLower (String.mk (f.code_lang.getD [])) ∉
      (["js", "javascript", "ts", "typescript", "tsx", "jsx"] : List String)) :
    ∃ env, extract_code_from_markdown pyI pyE jsI jsE message false =
      some (String.mk (pyStrip f.code), pyToLower (String.mk (f.code_lang.getD [])),
        ([], []), env) := by
  exact ⟨_, by
    simp only [extract_code_from_markdown, hsel]
    exact extractFromFence_nonPyJs pyI pyE jsI jsE f hpy hjs⟩

/-- Claim C10, witness: a `ruby`-tagged block whose body contains a
`require` statement still yields empty dependency lists. -/
theorem claim_C10_witness :
    ∃ env, extract_code_from_markdown (fun _ => []) (fun _ _ => none) (fun _ => [])
      (fun _ _ => none) "```ruby\nrequire x\n```" false =
      some ("require x", "ruby", ([], []), env) := by
  obtain ⟨env, henv⟩ := claim_C10_confirmed (fun _ => []) (fun _ _ => none) (fun _ => [])
    (fun _ _ => none) "```ruby\nrequire x\n```"
    { code_lang := some "ruby".data, code := "require x\n".data }
    (by decide) (by decide) (by decide)
  exact ⟨env, henv⟩
